import Mathlib

/-!
Verification of the ai_service core (scene analyzer, NLP fallback engine,
decision engine) against its natural-language specification.

Shallow embedding conventions:
* Python floats are modelled as rationals (all constants in the source are
  exact decimals), `round` as round-half-to-even (`pyRound`).
* Python dicts built by comprehensions keyed on `name` are modelled as
  association lists with Python insert semantics (replace in place, else
  append), preserving iteration order.
* `obj.get(key, default)` on optional fields is modelled with `Option` and
  `Option.getD`; a missing mandatory key (`obj["name"]` raising `KeyError`)
  is modelled as `Option`-failure.
* Async functions carry no concurrency here; they are plain functions.
-/

namespace Engine

/-- A 3-component position/vector, as in the Python `[x, y, z]` lists. -/
abbrev Vec3 := ℚ × ℚ × ℚ

/-- Python's `round` on a rational: round half to even (banker's rounding). -/
def pyRound (q : ℚ) : ℤ :=
  let f := ⌊q⌋
  let r := q - f
  if r < 1/2 then f
  else if r > 1/2 then f + 1
  else if Even f then f else f + 1

/-- A scene entry (object / light / camera) as handled by the scene analyzer:
only the fields the analyzer reads. `name` is `Option` because a payload
entry may lack it (`entry["name"]` then raises `KeyError`); `position` is
`Option` because the code reads it as `entry.get("position", [0, 0, 0])`. -/
structure Entry where
  name : Option String
  position : Option Vec3
  deriving DecidableEq, Repr

/-- Python-dict insertion: existing key keeps its position, value replaced;
new key appended at the end. -/
def dictInsert (m : List (String × Entry)) (k : String) (v : Entry) :
    List (String × Entry) :=
  if m.any (fun p => p.1 = k) then
    m.map (fun p => if p.1 = k then (k, v) else p)
  else m ++ [(k, v)]

/-- `{e["name"]: e for e in es}`: builds the category map, failing (KeyError)
if some entry has no name. -/
def buildDict (es : List Entry) : Option (List (String × Entry)) :=
  es.foldlM (fun m e => e.name.map (fun k => dictInsert m k e)) []

/-- `dict.get(k)`: lookup in a category map. -/
def dictGet (m : List (String × Entry)) (k : String) : Option Entry :=
  (m.find? (fun p => p.1 = k)).map (fun p => p.2)

/-- The scene snapshot owned by the scene analyzer (`self.current_scene`).
The never-read `metadata` map is omitted. -/
structure Scene where
  objects : List (String × Entry)
  lights : List (String × Entry)
  cameras : List (String × Entry)
  deriving DecidableEq, Repr

/-- The empty snapshot created by `SceneAnalyzer.initialize`. -/
def initScene : Scene := ⟨[], [], []⟩

/-- One history entry: the delta's timestamp plus the post-update snapshot. -/
structure HistoryEntry where
  timestamp : ℚ
  snapshot : Scene
  deriving DecidableEq, Repr

/-- The scene analyzer's mutable state after initialization. -/
structure Tracker where
  currentScene : Scene
  sceneHistory : List HistoryEntry
  deriving DecidableEq, Repr

/-- The analyzer state right after `initialize`. -/
def initTracker : Tracker := ⟨initScene, []⟩

/-- A scene-update payload (`scene_data`): each category is present or
absent, and `timestamp` is read with `scene_data.get("timestamp", 0)`. -/
structure SceneData where
  objects : Option (List Entry)
  lights : Option (List Entry)
  cameras : Option (List Entry)
  timestamp : Option ℚ
  deriving DecidableEq, Repr

/-- Category step of `update_scene_state`: absent category left untouched,
present category rebuilt wholesale from the incoming list. -/
def applyCat (cur : List (String × Entry)) :
    Option (List Entry) → Option (List (String × Entry))
  | none => some cur
  | some es => buildDict es

/-- Python's `history[-100:]`: the last `n` elements of a list. -/
def takeLast (n : Nat) (l : List α) : List α := l.drop (l.length - n)

/-- `SceneAnalyzer.update_scene_state` on an initialized analyzer.
The three categories are replaced in source order (objects, lights,
cameras); an entry without a name raises, re-raised to the caller, and the
`.error` value carries the state as mutated up to that point (assignments
already executed stay; the history append never runs on failure). -/
def updateSceneState (t : Tracker) (d : SceneData) : Except Tracker Tracker :=
  match applyCat t.currentScene.objects d.objects with
  | none => .error t
  | some objs =>
    let t1 : Tracker := { t with currentScene := { t.currentScene with objects := objs } }
    match applyCat t1.currentScene.lights d.lights with
    | none => .error t1
    | some lights =>
      let t2 : Tracker := { t1 with currentScene := { t1.currentScene with lights := lights } }
      match applyCat t2.currentScene.cameras d.cameras with
      | none => .error t2
      | some cams =>
        let scene3 : Scene := { t2.currentScene with cameras := cams }
        let hist := t2.sceneHistory ++ [⟨d.timestamp.getD 0, scene3⟩]
        let hist2 := if hist.length > 100 then takeLast 100 hist else hist
        .ok { currentScene := scene3, sceneHistory := hist2 }

/-- A sequence of update calls; `none` as soon as one call fails. -/
def runUpdates (t : Tracker) : List SceneData → Option Tracker
  | [] => some t
  | d :: ds =>
    match updateSceneState t d with
    | .ok t1 => runUpdates t1 ds
    | .error _ => none

/-- The pure scene part of one successful update (history ignored). -/
def applyScene (s : Scene) (d : SceneData) : Option Scene :=
  match applyCat s.objects d.objects with
  | none => none
  | some objs =>
    match applyCat s.lights d.lights with
    | none => none
    | some lights =>
      match applyCat s.cameras d.cameras with
      | none => none
      | some cams => some ⟨objs, lights, cams⟩

/-- The full chronological list of post-update snapshots (with timestamps)
a sequence of successful updates generates, together with the final scene;
`none` if some update fails. -/
def fullTrace (s : Scene) : List SceneData → Option (Scene × List HistoryEntry)
  | [] => some (s, [])
  | d :: ds =>
    match applyScene s d with
    | none => none
    | some s1 =>
      match fullTrace s1 ds with
      | none => none
      | some (sf, es) => some (sf, ⟨d.timestamp.getD 0, s1⟩ :: es)

/-- The occupancy list of `find_free_position`: for each object (in dict
iteration order), the rounded `(x, z)` of its position. The Python code
collects these into a set; list membership models set membership. -/
def occupancy (objs : List (String × Entry)) : List (ℤ × ℤ) :=
  objs.map (fun p =>
    let pos := p.2.position.getD (0, 0, 0)
    (pyRound pos.1, pyRound pos.2.2))

/-- `range(a, b+1)` over integers: the inclusive list `[a, ..., b]`. -/
def intRangeIncl (a b : ℤ) : List ℤ :=
  (List.range (b + 1 - a).toNat).map (fun i : ℕ => a + (i : ℤ))

/-- The cells scanned by the expanding-grid loop, in scan order:
`for radius in range(0, 10): for x in range(-radius, radius+1):
for z in range(-radius, radius+1)`. -/
def gridCandidates : List (ℤ × ℤ) :=
  (List.range 10).flatMap (fun r =>
    (intRangeIncl (-(r : ℤ)) r).flatMap (fun x =>
      (intRangeIncl (-(r : ℤ)) r).map (fun z => (x, z))))

/-- The grid-search branch of `find_free_position`: first scanned cell
`(x, z)` not in the occupancy set gives `[x*2, 0, z*2]`; if every cell is
occupied, the fallback `[0, 0, 0]`. -/
def gridSearch (occ : List (ℤ × ℤ)) : Vec3 :=
  match gridCandidates.find? (fun c => !(decide (c ∈ occ))) with
  | some c => ((2 * c.1 : ℤ), 0, (2 * c.2 : ℤ))
  | none => (0, 0, 0)

/-- The fixed per-direction offsets used with a resolvable reference object;
`offsets.get(direction, [0, 0, 2])`. -/
def dirOffset (dir : String) : Vec3 :=
  if dir = "front" then (0, 0, 2)
  else if dir = "behind" then (0, 0, -2)
  else if dir = "left" then (-2, 0, 0)
  else if dir = "right" then (2, 0, 0)
  else if dir = "above" then (0, 2, 0)
  else if dir = "below" then (0, -2, 0)
  else (0, 0, 2)

/-- `SceneAnalyzer.find_free_position`. The Python guard is
`if reference_obj and reference_obj in self.current_scene["objects"]`, so an
absent or empty reference name, or a name not in the objects map, falls
through to the grid search. -/
def findFreePosition (s : Scene) (ref : Option String) (dir : String) : Vec3 :=
  match ref with
  | some n =>
    if n ≠ "" then
      match dictGet s.objects n with
      | some e =>
        let p := e.position.getD (0, 0, 0)
        let off := dirOffset dir
        (p.1 + off.1, p.2.1 + off.2.1, p.2.2 + off.2.2)
      | none => gridSearch (occupancy s.objects)
    else gridSearch (occupancy s.objects)
  | none => gridSearch (occupancy s.objects)

/-- Euclidean distance squared is what comparisons reduce to; the source's
`_calculate_distance` is `sqrt` of this. We embed the radicand, which is
exact over ℚ (the `sqrt` is monotone and irrelevant to all claims). -/
def distanceSq (p q : Vec3) : ℚ :=
  (p.1 - q.1) ^ 2 + (p.2.1 - q.2.1) ^ 2 + (p.2.2 - q.2.2) ^ 2

/-! ## NLP engine (rule-based fallback path, spaCy absent) -/

/-- `leadsWith pat l`: the character list `l` starts with the run `pat`
(Python `text.startswith` on char lists; building block for `in`). -/
def leadsWith : List Char → List Char → Bool
  | [], _ => true
  | _ :: _, [] => false
  | a :: pat, b :: l => a = b && leadsWith pat l

/-- `hasSubstr text pat`: Python's `pat in text` substring test. -/
def hasSubstr (text pat : String) : Bool :=
  text.toList.tails.any (fun suf => leadsWith pat.toList suf)

/-- Python `str.lower()` (commands are English/ASCII text, where Python's
and Lean's per-character lowercasing agree). -/
def pyLower (s : String) : String := String.mk (s.toList.map Char.toLower)

/-- Splits a character list at whitespace, keeping the (possibly empty)
chunks between separators. -/
def splitWsAux : List Char → List Char → List (List Char)
  | [], cur => [cur.reverse]
  | c :: rest, cur =>
    if c.isWhitespace then cur.reverse :: splitWsAux rest []
    else splitWsAux rest (c :: cur)

/-- Python `command.lower().split()`: lowercase, split on whitespace runs,
discarding empty chunks. -/
def tokenize (cmd : String) : List String :=
  ((splitWsAux (pyLower cmd).toList []).map (fun cs => String.mk cs)).filter
    (fun t => t ≠ "")

/-- The ordered intent pattern table of `_initialize_patterns`
(`self.command_patterns`; Python dicts preserve insertion order). -/
def intentTable : List (String × List String) :=
  [("create_object", ["add", "create", "make", "place", "put"]),
   ("modify_object", ["move", "rotate", "scale", "change", "set", "adjust"]),
   ("delete_object", ["remove", "delete", "destroy"]),
   ("create_camera", ["add camera", "create camera", "place camera"]),
   ("modify_camera", ["move camera", "rotate camera", "change camera"]),
   ("create_light", ["add light", "create light", "add lighting"]),
   ("modify_light", ["change light", "adjust light", "set light"]),
   ("create_scene", ["create scene", "make scene", "build scene"]),
   ("save_scene", ["save", "save scene", "store scene"]),
   ("load_scene", ["load", "load scene", "open scene"])]

/-- The pattern-scan stage of `_extract_intent`: first table entry one of
whose trigger substrings occurs in the text wins. -/
def findIntent : List (String × List String) → String → Option String
  | [], _ => none
  | (intent, pats) :: rest, text =>
    if pats.any (fun p => hasSubstr text p) then some intent
    else findIntent rest text

/-- The verb list the fallback tokenizer tags as VERB
(`_create_fallback_token`). -/
def verbWords : List String :=
  ["add", "create", "make", "move", "rotate", "scale", "remove", "delete"]

/-- `_extract_intent` on the (lowercased) text and its fallback tokens:
pattern scan first, then the first-verb fallback, else "unknown". -/
def extractIntent (text : String) (tokens : List String) : String :=
  match findIntent intentTable text with
  | some intent => intent
  | none =>
    let verbs := tokens.filter (fun t => verbWords.contains t)
    match verbs with
    | [] => "unknown"
    | v :: _ =>
      if ["add", "create", "make"].contains v then "create_object"
      else if ["move", "rotate", "scale"].contains v then "modify_object"
      else if ["remove", "delete"].contains v then "delete_object"
      else "unknown"

/-- An extracted entity (`{"text", "type", "start", "end"}`); in the
fallback path `start` is the token index (the fallback token's `idx`). -/
structure Entity where
  text : String
  type : String
  start : Nat
  stop : Nat
  deriving DecidableEq, Repr

/-- The fixed object-type vocabulary of `_extract_entities`. -/
def objectTypes : List String :=
  ["cube", "sphere", "pyramid", "chair", "table", "camera", "light"]

/-- `_extract_entities` in the fallback path: `doc.ents` is empty, so the
entities are exactly the vocabulary tokens, in token order. -/
def extractEntities (tokens : List String) : List Entity :=
  (tokens.enum.filterMap (fun ti =>
    if objectTypes.contains ti.2 then
      some ⟨ti.2, "OBJECT_TYPE", ti.1, ti.1 + ti.2.length⟩
    else none))

/-- A coordinate axis of the `position_words` table. -/
inductive Axis
  | x
  | y
  | z
  deriving DecidableEq, Repr

/-- The `position_words` table: each direction word maps to a one-key dict
`{axis: delta}`. -/
def positionWords (w : String) : Option (Axis × ℚ) :=
  if w = "front" then some (.z, 1)
  else if w = "behind" then some (.z, -1)
  else if w = "left" then some (.x, -1)
  else if w = "right" then some (.x, 1)
  else if w = "above" then some (.y, 1)
  else if w = "below" then some (.y, -1)
  else none

/-- The `position_hint` dict: each axis key present or absent. -/
structure PosHint where
  x : Option ℚ
  y : Option ℚ
  z : Option ℚ
  deriving DecidableEq, Repr

/-- The empty `position_hint` dict `{}`. -/
def PosHint.empty : PosHint := ⟨none, none, none⟩

/-- `parameters["position_hint"].update({axis: delta})`: a plain dict update,
the axis key is SET to the delta (overwriting any previous value). -/
def setAxis (h : PosHint) : Axis × ℚ → PosHint
  | (.x, v) => { h with x := some v }
  | (.y, v) => { h with y := some v }
  | (.z, v) => { h with z := some v }

/-- The position-hint loop of `_extract_parameters`: for each token that is
a direction word, create the hint dict if absent, then `update` it. -/
def extractPositionHint (tokens : List String) : Option PosHint :=
  tokens.foldl (fun acc t =>
    match positionWords t with
    | some u => some (setAxis (acc.getD PosHint.empty) u)
    | none => acc) none

/-- The `parameters` dict produced by `_extract_parameters`. In the
fallback path every token has `dep_ = ""`, so `relative_to` is never set. -/
structure Params where
  objectType : Option String
  positionHint : Option PosHint
  relativeTo : Option String
  deriving DecidableEq, Repr

/-- `_extract_parameters`: `object_type` is overwritten by each
OBJECT_TYPE entity in order (last one wins); then the position-hint loop;
then the (fallback-dead) `relative_to` loop. -/
def extractParameters (tokens : List String) (entities : List Entity) : Params :=
  { objectType := entities.foldl (fun acc e =>
      if e.type = "OBJECT_TYPE" then some e.text else acc) none,
    positionHint := extractPositionHint tokens,
    relativeTo := none }

/-- The result dict of a successful `parse_command`. -/
structure Parsed where
  intent : String
  entities : List Entity
  parameters : Params
  originalCommand : String
  tokens : List String
  deriving DecidableEq, Repr

/-- `NLPEngine.parse_command` (fallback path, no spaCy): raises
`RuntimeError` when the engine is not initialized (modelled as `.error`);
otherwise lowercases, tokenizes and extracts intent/entities/parameters.
The body inside the `try` is total, so the `except` branch (which would
return the "unknown" result) is unreachable in this embedding. -/
def parseCommand (initialized : Bool) (cmd : String) : Except String Parsed :=
  if !initialized then .error "NLP Engine not initialized"
  else
    let lower := pyLower cmd
    let tokens := tokenize cmd
    let entities := extractEntities tokens
    .ok { intent := extractIntent lower tokens,
          entities := entities,
          parameters := extractParameters tokens entities,
          originalCommand := cmd,
          tokens := tokens }

/-! ## Decision engine -/

/-- A placement rule entry of `self.rules["placement"]`. Only the numeric
fields that the handlers read are modelled; the never-read policy flags
(`preferred_grouping`, `acts_as_center`, `relation_to_table`,
`recommended_count`, `look_at_center`, `spacing`) carry no behavior. -/
structure PlacementRule where
  defaultHeight : ℚ
  recommendedDistance : Option ℚ
  deriving DecidableEq, Repr

/-- The placement table loaded by `_load_rules`. -/
def placement (t : String) : Option PlacementRule :=
  if t = "chair" then some ⟨0, none⟩
  else if t = "table" then some ⟨0, none⟩
  else if t = "light" then some ⟨2, none⟩
  else if t = "camera" then some ⟨3/2, some 5⟩
  else none

/-- A template object spec (`{"type": ..., "position": ...}`). -/
structure TemplateObj where
  type : String
  position : Vec3
  deriving DecidableEq, Repr

/-- A template light spec; `intensity` and `color` keys may be absent. -/
structure TemplateLight where
  type : String
  position : Vec3
  intensity : Option ℚ
  color : Option Vec3
  deriving DecidableEq, Repr

/-- A template camera spec. -/
structure TemplateCam where
  type : String
  position : Vec3
  deriving DecidableEq, Repr

/-- A scene template; each category key may be absent
(`template.get("objects", [])` etc.). -/
structure Template where
  objects : Option (List TemplateObj)
  lights : Option (List TemplateLight)
  cameras : Option (List TemplateCam)
  deriving DecidableEq, Repr

/-- The template table loaded by `_load_templates`. -/
def templates : List (String × Template) :=
  [("living_room",
    { objects := some
        [⟨"sofa", (0, 0, -2)⟩,
         ⟨"coffee_table", (0, 0, 0)⟩,
         ⟨"chair", (-2, 0, 0)⟩,
         ⟨"chair", (2, 0, 0)⟩],
      lights := some
        [⟨"key_light", (3, 3, 3), none, none⟩,
         ⟨"fill_light", (-2, 2, 2), none, none⟩],
      cameras := some [⟨"wide_shot", (0, 2, 8)⟩] }),
   ("dramatic_lighting",
    { objects := none,
      lights := some
        [⟨"key_light", (4, 4, 4), some 2, some (1, 4/5, 3/5)⟩,
         ⟨"fill_light", (-2, 2, 2), some (1/2), none⟩,
         ⟨"back_light", (0, 3, -4), some (3/2), none⟩],
      cameras := none })]

/-- An action dict emitted by the decision engine. `Option` fields record
keys that some emission sites omit (e.g. scene-template `create_object`
actions carry no `rotation`/`scale`). -/
inductive Action
  | createObject (objectType : String) (position : Vec3)
      (rotation : Option Vec3) (scale : Option Vec3)
  | modifyObject (objectName : Option String) (property : String) (value : Vec3)
  | createLight (lightType : String) (position : Vec3)
      (intensity : Option ℚ) (color : Option Vec3)
  | createCamera (position : Vec3) (lookAt : Option Vec3) (fov : Option ℚ)
  deriving DecidableEq, Repr

/-- The result of `make_decision`: an action list plus a rationale. -/
structure Decision where
  actions : List Action
  reasoning : String
  deriving DecidableEq, Repr

/-- The merged context dict passed to `make_decision`; `Option` fields are
the key-present / key-absent distinction of the Python dict. -/
structure Context where
  objectType : Option String
  relativeTo : Option String
  positionHint : Option PosHint
  sceneType : Option String
  template : Option String
  objectName : Option String
  property : Option String
  value : Option Vec3
  deriving DecidableEq, Repr

/-- The all-absent context `{}`. -/
def Context.empty : Context := ⟨none, none, none, none, none, none, none, none⟩

/-- `_decide_object_creation`: default type "cube"; base position
`[0, default_height, 0]`; only when the `relative_to` KEY is present is the
position hint applied, and only its x and z deltas, each scaled by 2. -/
def decideObjectCreation (ctx : Context) : Decision :=
  let objectType := ctx.objectType.getD "cube"
  let dh := ((placement objectType).getD ⟨0, none⟩).defaultHeight
  let base : Vec3 := (0, dh, 0)
  let position : Vec3 :=
    match ctx.relativeTo with
    | some _ =>
      let h := ctx.positionHint.getD PosHint.empty
      (base.1 + h.x.getD 0 * 2, base.2.1, base.2.2 + h.z.getD 0 * 2)
    | none => base
  { actions := [.createObject objectType position (some (0, 0, 0)) (some (1, 1, 1))],
    reasoning := "Creating " ++ objectType ++ " at optimal position" }

/-- `_decide_object_modification`. -/
def decideObjectModification (ctx : Context) : Decision :=
  { actions := [.modifyObject ctx.objectName (ctx.property.getD "position")
      (ctx.value.getD (0, 0, 0))],
    reasoning := "Modifying object as requested" }

/-- `_decide_camera_placement`: fixed position from the camera placement
rule, looking at the origin, fov 50. -/
def decideCameraPlacement (_ctx : Context) : Decision :=
  let distance : ℚ := 5
  let height : ℚ := 3/2
  { actions := [.createCamera (0, height, distance) (some (0, 0, 0)) (some 50)],
    reasoning := "Placing camera for optimal framing" }

/-- `_decide_light_placement`: a known template (default key "three_point")
expands its lights, else one default directional light. -/
def decideLightPlacement (ctx : Context) : Decision :=
  let lightTemplate := ctx.template.getD "three_point"
  match templates.lookup lightTemplate with
  | some tpl =>
    { actions := (tpl.lights.getD []).map (fun l =>
        .createLight l.type l.position (some (l.intensity.getD 1))
          (some (l.color.getD (1, 1, 1)))),
      reasoning := "Applied " ++ lightTemplate ++ " lighting template" }
  | none =>
    { actions := [.createLight "directional" (2, 2, 2) (some 1) (some (1, 1, 1))],
      reasoning := "Creating default directional light" }

/-- `_decide_scene_creation`: default scene type "living_room"; a known
template expands objects, then lights, then cameras; an unknown one yields
no actions and a "Template ... not found" rationale. -/
def decideSceneCreation (ctx : Context) : Decision :=
  let sceneType := ctx.sceneType.getD "living_room"
  match templates.lookup sceneType with
  | some tpl =>
    { actions :=
        (tpl.objects.getD []).map (fun o => .createObject o.type o.position none none)
        ++ (tpl.lights.getD []).map (fun l => .createLight l.type l.position none none)
        ++ (tpl.cameras.getD []).map (fun c => .createCamera c.position none none),
      reasoning := "Applied " ++ sceneType ++ " scene template" }
  | none =>
    { actions := [], reasoning := "Template " ++ sceneType ++ " not found" }

/-- `DecisionEngine.make_decision` after initialization: dispatch on the
intent string; anything unknown yields no actions. (The handlers are total,
so the `except` branch of the source is unreachable in this embedding.) -/
def makeDecision (intent : String) (ctx : Context) : Decision :=
  if intent = "create_object" then decideObjectCreation ctx
  else if intent = "modify_object" then decideObjectModification ctx
  else if intent = "create_camera" then decideCameraPlacement ctx
  else if intent = "create_light" then decideLightPlacement ctx
  else if intent = "create_scene" then decideSceneCreation ctx
  else { actions := [], reasoning := "Unknown intent" }

/-- The context the `/command` route builds from a parse result when the
scene-state payload is absent or empty: just the parsed parameters
(`{**parsed["parameters"], **{}}`). -/
def paramsContext (p : Params) : Context :=
  { objectType := p.objectType,
    relativeTo := p.relativeTo,
    positionHint := p.positionHint,
    sceneType := none,
    template := none,
    objectName := none,
    property := none,
    value := none }

/-! ## Specification-side definitions and concrete inputs for the claims -/

/-- The delta the `position_words` table assigns to token `t` on axis `a`,
if any. -/
def axisDelta (a : Axis) (t : String) : Option ℚ :=
  match positionWords t with
  | some (b, v) => if b = a then some v else none
  | none => none

/-- The delta of the LAST direction word on axis `a` in token order. -/
def lastAxisDelta (a : Axis) (toks : List String) : Option ℚ :=
  (toks.filterMap (axisDelta a)).getLast?

/-- Whether a token is a direction word. -/
def isPosWord (t : String) : Bool := (positionWords t).isSome

/-- Additive per-axis accumulation, following the SPEC's words ("multiple
direction words accumulate additively"); for comparison with the code's
`setAxis`, which overwrites. -/
def addAxis (h : PosHint) : Axis × ℚ → PosHint
  | (.x, v) => { h with x := some (h.x.getD 0 + v) }
  | (.y, v) => { h with y := some (h.y.getD 0 + v) }
  | (.z, v) => { h with z := some (h.z.getD 0 + v) }

/-- The position hint as the spec describes it: the additive accumulation
over all direction-word tokens (spec-side definition, to be compared with
the code's `extractPositionHint`). -/
def positionHintAdditiveSpec (tokens : List String) : Option PosHint :=
  tokens.foldl (fun acc t =>
    match positionWords t with
    | some u => some (addAxis (acc.getD PosHint.empty) u)
    | none => acc) none

/-- C1 counterexample scene: objects at `(0, 0, 0)` and `(-2, 0, -2)`. -/
def sceneC1 : Scene :=
  { objects := [("a", ⟨some "a", some (0, 0, 0)⟩), ("b", ⟨some "b", some (-2, 0, -2)⟩)],
    lights := [], cameras := [] }

/-- C3 counterexample context: a position hint but no `relative_to` key. -/
def ctxC3 : Context :=
  { Context.empty with positionHint := some ⟨some 1, none, none⟩ }

/-- C3 witness context: a hint on all three axes and a `relative_to` key. -/
def ctxC3w : Context :=
  { Context.empty with positionHint := some ⟨some 1, some 1, some 1⟩,
                       relativeTo := some "table_1" }

/-- C4 witness: a single well-formed update payload. -/
def dsC4 : List SceneData :=
  [{ objects := some [⟨some "a", some (1, 0, 1)⟩], lights := none,
     cameras := none, timestamp := some 2 }]

/-- C4 witness: the tracker state after running `dsC4` from startup. -/
def tC4 : Tracker :=
  { currentScene := { objects := [("a", ⟨some "a", some (1, 0, 1)⟩)], lights := [], cameras := [] },
    sceneHistory :=
      [⟨2, { objects := [("a", ⟨some "a", some (1, 0, 1)⟩)], lights := [], cameras := [] }⟩] }

/-- C5 counterexample: the tracker state before the malformed update. -/
def trackerC5 : Tracker :=
  { currentScene := { objects := [("old", ⟨some "old", some (5, 0, 5)⟩)],
                      lights := [], cameras := [] },
    sceneHistory := [] }

/-- C5 counterexample payload: well-formed objects, a light without a name. -/
def payloadC5 : SceneData :=
  { objects := some [⟨some "a", some (1, 0, 1)⟩],
    lights := some [⟨none, none⟩],
    cameras := none, timestamp := some 1 }

/-! ## Claim C6: parse never raises -/

/-- C6 counterexample: `parse_command` DOES raise to the caller when the
engine is not initialized (`RuntimeError("NLP Engine not initialized")`),
so "in every engine state, parse never raises" fails. -/
theorem C6_counterexample :
    parseCommand false "add a cube" = .error "NLP Engine not initialized" := rfl

/-- C6 (amended): on an initialized engine, `parse_command` never raises —
it returns a result for every command string; on an uninitialized engine it
raises `RuntimeError`. -/
theorem C6_parse_total_when_initialized (cmd : String) :
    (∃ r, parseCommand true cmd = .ok r) ∧
    parseCommand false cmd = .error "NLP Engine not initialized" :=
  ⟨⟨_, rfl⟩, rfl⟩

/-! ## Claim C10: create_scene with no scene_type defaults to living_room -/

/-- C10: `make_decision` with intent `create_scene` and a context without a
`scene_type` key defaults to the "living_room" template and returns its
full expansion: four `create_object` actions, then two `create_light`
actions, then one `create_camera` action. -/
theorem C10_scene_type_default_living_room (ctx : Context) (h : ctx.sceneType = none) :
    makeDecision "create_scene" ctx =
      { actions :=
          [.createObject "sofa" (0, 0, -2) none none,
           .createObject "coffee_table" (0, 0, 0) none none,
           .createObject "chair" (-2, 0, 0) none none,
           .createObject "chair" (2, 0, 0) none none,
           .createLight "key_light" (3, 3, 3) none none,
           .createLight "fill_light" (-2, 2, 2) none none,
           .createCamera (0, 2, 8) none none],
        reasoning := "Applied living_room scene template" } := by
  obtain ⟨o, r, p, st, tp, nm, pr, v⟩ := ctx
  cases h
  rfl

/-- C10 witness: the empty context at the concrete input. -/
theorem C10_scene_type_default_living_room_witness :
    makeDecision "create_scene" Context.empty =
      { actions :=
          [.createObject "sofa" (0, 0, -2) none none,
           .createObject "coffee_table" (0, 0, 0) none none,
           .createObject "chair" (-2, 0, 0) none none,
           .createObject "chair" (2, 0, 0) none none,
           .createLight "key_light" (3, 3, 3) none none,
           .createLight "fill_light" (-2, 2, 2) none none,
           .createCamera (0, 2, 8) none none],
        reasoning := "Applied living_room scene template" } :=
  C10_scene_type_default_living_room Context.empty rfl

/-! ## Claim C8: create_scene template expansion and unknown template -/

/-- C8: `make_decision` with intent `create_scene` and a named scene type:
a known template expands, in order, to one `create_object` action per
template object, then one `create_light` action per template light, then
one `create_camera` action per template camera; an unknown name yields an
empty action list and a reasoning string containing the name. -/
theorem C8_scene_creation_template_expansion (ctx : Context) (name : String)
    (h : ctx.sceneType = some name) :
    (∀ tpl, templates.lookup name = some tpl →
      makeDecision "create_scene" ctx =
        { actions :=
            (tpl.objects.getD []).map (fun o => .createObject o.type o.position none none)
            ++ (tpl.lights.getD []).map (fun l => .createLight l.type l.position none none)
            ++ (tpl.cameras.getD []).map (fun c => .createCamera c.position none none),
          reasoning := "Applied " ++ name ++ " scene template" }) ∧
    (templates.lookup name = none →
      (makeDecision "create_scene" ctx).actions = [] ∧
      ∃ pre post, (makeDecision "create_scene" ctx).reasoning = pre ++ name ++ post) := by
  obtain ⟨o, r, p, st, tp, nm, pr, v⟩ := ctx
  cases h
  have hd : makeDecision "create_scene" ⟨o, r, p, some name, tp, nm, pr, v⟩ =
      decideSceneCreation ⟨o, r, p, some name, tp, nm, pr, v⟩ := rfl
  constructor
  · intro tpl htpl
    rw [hd]
    unfold decideSceneCreation
    simp only [Option.getD_some]
    rw [htpl]
  · intro hnone
    rw [hd]
    unfold decideSceneCreation
    simp only [Option.getD_some]
    rw [hnone]
    exact ⟨rfl, "Template ", " not found", rfl⟩

/-- C8 witness: both branches at concrete inputs — the known template
"dramatic_lighting" (no objects, three lights, no cameras) and the unknown
template "warehouse". -/
theorem C8_scene_creation_template_expansion_witness :
    (makeDecision "create_scene" { Context.empty with sceneType := some "dramatic_lighting" } =
      { actions :=
          [.createLight "key_light" (4, 4, 4) none none,
           .createLight "fill_light" (-2, 2, 2) none none,
           .createLight "back_light" (0, 3, -4) none none],
        reasoning := "Applied dramatic_lighting scene template" }) ∧
    ((makeDecision "create_scene" { Context.empty with sceneType := some "warehouse" }).actions = [] ∧
      ∃ pre post,
        (makeDecision "create_scene" { Context.empty with sceneType := some "warehouse" }).reasoning =
          pre ++ "warehouse" ++ post) :=
  ⟨(C8_scene_creation_template_expansion _ "dramatic_lighting" rfl).1 _ rfl,
   (C8_scene_creation_template_expansion _ "warehouse" rfl).2 rfl⟩

/-! ## Claim C3: position_hint handling in object creation -/

/-- C3 counterexample: with a `position_hint` of `{x: 1}` and no
`relative_to` key, the created position is `(0, 0, 0)`, not the claimed
base-plus-2-per-axis `(2, 0, 0)`: the hint is ignored without
`relative_to`. -/
theorem C3_counterexample :
    makeDecision "create_object" ctxC3 =
      { actions := [.createObject "cube" (0, 0, 0) (some (0, 0, 0)) (some (1, 1, 1))],
        reasoning := "Creating cube at optimal position" } ∧
    (0 : ℚ) ≠ (0 + 1 * 2 : ℚ) :=
  ⟨rfl, by norm_num⟩

/-- C3 (amended): with a `position_hint` present, `make_decision` with
intent `create_object` returns exactly one `create_object` action; the hint
contributes only when the context also carries `relative_to`, and then only
its x and z deltas scaled by 2 — the y coordinate stays at the placement
rule's default height in every case. -/
theorem C3_position_hint_requires_relative_to (ctx : Context) (h : PosHint)
    (hh : ctx.positionHint = some h) :
    makeDecision "create_object" ctx =
      { actions := [.createObject (ctx.objectType.getD "cube")
          (if ctx.relativeTo.isSome then
            (0 + h.x.getD 0 * 2,
             ((placement (ctx.objectType.getD "cube")).getD ⟨0, none⟩).defaultHeight,
             0 + h.z.getD 0 * 2)
           else
            (0,
             ((placement (ctx.objectType.getD "cube")).getD ⟨0, none⟩).defaultHeight,
             0))
          (some (0, 0, 0)) (some (1, 1, 1))],
        reasoning := "Creating " ++ ctx.objectType.getD "cube" ++ " at optimal position" } := by
  obtain ⟨o, r, p, st, tp, nm, pr, v⟩ := ctx
  cases hh
  cases r <;> rfl

/-- C3 witness: concrete context with a hint on all three axes and a
`relative_to` key: x and z move by 2, y stays at the default height 0. -/
theorem C3_position_hint_requires_relative_to_witness :
    makeDecision "create_object" ctxC3w =
      { actions := [.createObject "cube" (0 + 1 * 2, 0, 0 + 1 * 2)
          (some (0, 0, 0)) (some (1, 1, 1))],
        reasoning := "Creating cube at optimal position" } :=
  C3_position_hint_requires_relative_to ctxC3w ⟨some 1, some 1, some 1⟩ rfl

/-! ## Claim C7: the "create a living room" scenario -/

/-- C7 counterexample: parsing "create a living room" yields intent
`create_object` (the `create_object` trigger "create" matches first), not
the claimed `create_scene`. -/
theorem C7_counterexample :
    (parseCommand true "create a living room").map Parsed.intent = .ok "create_object" ∧
    "create_object" ≠ "create_scene" :=
  ⟨rfl, by decide⟩

/-- C7 (amended): on an empty scene, parsing "create a living room" yields
intent `create_object` with no parameters extracted, and the subsequent
decision is exactly one `create_object` action of type "cube" at the
origin — no light or camera actions and no template expansion. -/
theorem C7_create_living_room_chain :
    (parseCommand true "create a living room").map
      (fun r => (r.intent, r.parameters, makeDecision r.intent (paramsContext r.parameters))) =
    .ok ("create_object", ⟨none, none, none⟩,
      { actions := [.createObject "cube" (0, 0, 0) (some (0, 0, 0)) (some (1, 1, 1))],
        reasoning := "Creating cube at optimal position" }) := rfl

/-! ## Claim C1: free-position search and rounded-cell collisions -/

/-- `pyRound` is the identity on integers. -/
theorem pyRound_intCast (n : ℤ) : pyRound (n : ℚ) = n := by
  simp only [pyRound, Int.floor_intCast]
  norm_num

/-- `pyRound 0 = 0`. -/
theorem pyRound_zero : pyRound (0 : ℚ) = 0 := by
  rw [show (0 : ℚ) = ((0 : ℤ) : ℚ) by norm_num, pyRound_intCast]

/-- `pyRound (-2) = -2`. -/
theorem pyRound_neg_two : pyRound (-2 : ℚ) = -2 := by
  rw [show (-2 : ℚ) = (((-2) : ℤ) : ℚ) by norm_num, pyRound_intCast]

/-- The occupancy set of the C1 counterexample scene. -/
theorem occupancy_sceneC1 : occupancy sceneC1.objects = [(0, 0), (-2, -2)] := by
  simp [occupancy, sceneC1, pyRound_zero, pyRound_neg_two]

/-- Every integer in `[a, b]` is in `intRangeIncl a b`. -/
theorem mem_intRangeIncl (a b x : ℤ) (h1 : a ≤ x) (h2 : x ≤ b) :
    x ∈ intRangeIncl a b := by
  have hx : x = a + ((x - a).toNat : ℤ) := by omega
  have hm : (x - a).toNat ∈ List.range (b + 1 - a).toNat :=
    List.mem_range.mpr (by omega)
  rw [hx, intRangeIncl]
  exact List.mem_map_of_mem (fun i : ℕ => a + (i : ℤ)) hm

/-- Every cell of the 19×19 grid is scanned (it appears in the radius-9
block of the candidate list). -/
theorem mem_gridCandidates (x z : ℤ) (hx : x.natAbs ≤ 9) (hz : z.natAbs ≤ 9) :
    (x, z) ∈ gridCandidates := by
  unfold gridCandidates
  rw [List.mem_flatMap]
  refine ⟨9, by rw [List.mem_range]; omega, ?_⟩
  rw [List.mem_flatMap]
  refine ⟨x, mem_intRangeIncl _ _ _ (by omega) (by omega), ?_⟩
  rw [List.mem_map]
  exact ⟨z, mem_intRangeIncl _ _ _ (by omega) (by omega), rfl⟩

/-- C1 counterexample: the scene with objects at `(0,0,0)` and `(-2,0,-2)`
occupies only 2 ≤ 19×19 distinct rounded cells, yet `find_free_position`
(no reference object) returns `(-2, 0, -2)`, whose rounded `(x, z)` equals
the rounded cell of the object at `(-2, 0, -2)` — a collision. The search
checks the grid cell `(x, z)` for freeness but returns the doubled
coordinates `(2x, 0, 2z)`. -/
theorem C1_counterexample :
    (occupancy sceneC1.objects).dedup.length ≤ 19 * 19 ∧
    (pyRound (findFreePosition sceneC1 none "front").1,
     pyRound (findFreePosition sceneC1 none "front").2.2) ∈ occupancy sceneC1.objects := by
  have hf : findFreePosition sceneC1 none "front" =
      (((2 * (-1 : ℤ) : ℤ) : ℚ), 0, ((2 * (-1 : ℤ) : ℤ) : ℚ)) := by
    show gridSearch (occupancy sceneC1.objects) = _
    rw [occupancy_sceneC1]
    show (match gridCandidates.find? (fun c => !(decide (c ∈ [(0, 0), (-2, -2)]))) with
      | some c => (((2 * c.1 : ℤ) : ℚ), 0, ((2 * c.2 : ℤ) : ℚ))
      | none => ((0 : ℚ), (0 : ℚ), (0 : ℚ))) = _
    rw [show gridCandidates.find? (fun c => !(decide (c ∈ [(0, 0), (-2, -2)]))) =
      some ((-1 : ℤ), (-1 : ℤ)) by decide]
  constructor
  · rw [occupancy_sceneC1]; decide
  · rw [hf, occupancy_sceneC1]
    norm_num [pyRound_neg_two]

/-- C1 (amended): when no reference object resolves and some cell of the
scanned `[-9, 9] × [-9, 9]` grid is unoccupied, `find_free_position`
returns `(2x, 0, 2z)` for the first scanned grid cell `(x, z)` that is NOT
in the occupancy set — i.e. the HALVED coordinates of the result avoid all
objects' rounded `(x, z)` cells; the result's own rounded `(x, z)` may
still coincide with an occupied cell. -/
theorem C1_grid_search_halved_cell_free (s : Scene) (ref : Option String) (dir : String)
    (href : ∀ n, ref = some n → n = "" ∨ dictGet s.objects n = none)
    (hfree : ∃ c : ℤ × ℤ, c.1.natAbs ≤ 9 ∧ c.2.natAbs ≤ 9 ∧ c ∉ occupancy s.objects) :
    ∃ x z : ℤ, findFreePosition s ref dir = (((2 * x : ℤ) : ℚ), 0, ((2 * z : ℤ) : ℚ)) ∧
      (x, z) ∉ occupancy s.objects := by
  have hgrid : findFreePosition s ref dir = gridSearch (occupancy s.objects) := by
    cases ref with
    | none => rfl
    | some n =>
      rcases href n rfl with he | hn
      · subst he; rfl
      · simp only [findFreePosition, hn]
        split <;> rfl
  rw [hgrid]
  unfold gridSearch
  cases hfind : gridCandidates.find? (fun c => !(decide (c ∈ occupancy s.objects))) with
  | none =>
    exfalso
    obtain ⟨c, hx, hz, hocc⟩ := hfree
    have := List.find?_eq_none.mp hfind c (mem_gridCandidates c.1 c.2 hx hz)
    simp at this
    exact hocc this
  | some c =>
    have hp := List.find?_some hfind
    simp at hp
    exact ⟨c.1, c.2, rfl, hp⟩

/-- C1 witness: the empty scene, no reference: cell (0,0) is free. -/
theorem C1_grid_search_halved_cell_free_witness :
    ∃ x z : ℤ, findFreePosition initScene none "front" =
      (((2 * x : ℤ) : ℚ), 0, ((2 * z : ℤ) : ℚ)) ∧
      (x, z) ∉ occupancy initScene.objects :=
  C1_grid_search_halved_cell_free initScene none "front"
    (fun _ h => Option.noConfusion h)
    ⟨(0, 0), by decide, by decide, by simp [occupancy, initScene]⟩

/-! ## Claim C5: atomicity of failed scene updates -/

/-- If every entry carries a name, building the category dict succeeds. -/
theorem buildDict_isSome (es : List Entry) (h : ∀ e ∈ es, e.name ≠ none) :
    ∃ m, buildDict es = some m := by
  suffices hgen : ∀ init : List (String × Entry),
      ∃ m, es.foldlM (fun m e => e.name.map (fun k => dictInsert m k e)) init = some m by
    exact hgen []
  induction es with
  | nil => intro init; exact ⟨init, rfl⟩
  | cons e es ih =>
    intro init
    have he : e.name ≠ none := h e (List.mem_cons_self e es)
    obtain ⟨k, hk⟩ := Option.ne_none_iff_exists.mp he
    have ih2 := fun init => ih (fun x hx => h x (List.mem_cons_of_mem e hx)) init
    obtain ⟨m, hm⟩ := ih2 (dictInsert init k e)
    refine ⟨m, ?_⟩
    rw [List.foldlM_cons, ← hk]
    simpa using hm

/-- If some entry lacks a name, building the category dict fails. -/
theorem buildDict_eq_none (es : List Entry) (h : ∃ e ∈ es, e.name = none) :
    buildDict es = none := by
  suffices hgen : ∀ init : List (String × Entry),
      es.foldlM (fun m e => e.name.map (fun k => dictInsert m k e)) init = none by
    exact hgen []
  induction es with
  | nil => obtain ⟨e, he, _⟩ := h; exact absurd he (List.not_mem_nil e)
  | cons e es ih =>
    intro init
    rw [List.foldlM_cons]
    cases hn : e.name with
    | none => rfl
    | some k =>
      obtain ⟨e2, he2, hname⟩ := h
      rcases List.mem_cons.mp he2 with he2 | he2
      · subst he2; rw [hn] at hname; exact absurd hname (by simp)
      · have := ih ⟨e2, he2, hname⟩
        simpa using this (dictInsert init k e)

/-- C5 counterexample: a payload whose objects are well-formed but whose
light lacks its name makes the update fail — yet the tracker's objects map
HAS been replaced (it differs from its pre-call value), so the state is
not unchanged. -/
theorem C5_counterexample :
    updateSceneState trackerC5 payloadC5 =
      .error { currentScene := { objects := [("a", ⟨some "a", some (1, 0, 1)⟩)],
                                 lights := [], cameras := [] },
               sceneHistory := [] } ∧
    [("a", (⟨some "a", some (1, 0, 1)⟩ : Entry))] ≠ trackerC5.currentScene.objects :=
  ⟨rfl, by simp [trackerC5]⟩

/-- C5 (amended): on a payload with well-formed objects and a light entry
lacking its name, the update call fails and no history entry is appended,
but the call is NOT atomic: the objects map has already been replaced by
the rebuilt dict, while the lights and cameras maps keep their prior
values. -/
theorem C5_failed_update_partial_mutation (t : Tracker) (d : SceneData)
    (es ls : List Entry)
    (ho : d.objects = some es) (hn : ∀ e ∈ es, e.name ≠ none)
    (hl : d.lights = some ls) (hbad : ∃ l ∈ ls, l.name = none) :
    ∃ objs, buildDict es = some objs ∧
      updateSceneState t d =
        .error { t with currentScene := { t.currentScene with objects := objs } } := by
  obtain ⟨objs, hobjs⟩ := buildDict_isSome es hn
  refine ⟨objs, hobjs, ?_⟩
  unfold updateSceneState
  rw [ho]
  show (match buildDict es with
    | none => _
    | some objs => _) = _
  rw [hobjs]
  simp only
  rw [hl]
  show (match buildDict ls with
    | none => _
    | some lights => _) = _
  rw [buildDict_eq_none ls hbad]

/-- C5 witness: the concrete tracker and payload of the counterexample. -/
theorem C5_failed_update_partial_mutation_witness :
    ∃ objs, buildDict [(⟨some "a", some (1, 0, 1)⟩ : Entry)] = some objs ∧
      updateSceneState trackerC5 payloadC5 =
        .error { trackerC5 with
                 currentScene := { trackerC5.currentScene with objects := objs } } :=
  C5_failed_update_partial_mutation trackerC5 payloadC5 _ _ rfl
    (by intro e he; simp at he; subst he; simp)
    rfl ⟨⟨none, none⟩, by simp [payloadC5], rfl⟩

/-! ## Claim C9: create_object's triggers shadow later table entries -/

/-- If a character list starts with `xs ++ ys`, it starts with `xs`. -/
theorem leadsWith_of_append (xs ys l : List Char)
    (h : leadsWith (xs ++ ys) l = true) : leadsWith xs l = true := by
  induction xs generalizing l with
  | nil => rfl
  | cons a xs ih =>
    cases l with
    | nil => exact absurd h (by simp [leadsWith])
    | cons b l =>
      rw [List.cons_append, leadsWith] at h
      rw [leadsWith]
      obtain ⟨h1, h2⟩ := Bool.and_eq_true_iff.mp h
      rw [h1, ih l h2]
      rfl

/-- If `p ++ q` occurs in `text`, so does `p` (substring of a prefix). -/
theorem hasSubstr_of_append (text p q : String)
    (h : hasSubstr text (p ++ q) = true) : hasSubstr text p = true := by
  unfold hasSubstr at h ⊢
  obtain ⟨suf, hmem, hlead⟩ := List.any_eq_true.mp h
  refine List.any_eq_true.mpr ⟨suf, hmem, ?_⟩
  rw [show (p ++ q).toList = p.toList ++ q.toList from String.data_append p q] at hlead
  exact leadsWith_of_append _ _ _ hlead

/-- C9 counterexample: the `create_scene` table entry IS reachable through
substring matching — "build scene" contains no earlier trigger, so the
pattern scan classifies it as `create_scene`. -/
theorem C9_counterexample :
    findIntent intentTable "build scene" = some "create_scene" := by decide

/-- C9 (amended): every command whose lowercased text contains "add" or
"create" parses to intent `create_object`; the later table entries for
`create_camera` and `create_light` are unreachable through substring
matching (each of their triggers contains an earlier trigger), while
`create_scene` is reachable only through its "build scene" trigger (its
"create scene" and "make scene" triggers are shadowed). -/
theorem C9_add_create_shadowing (cmd text : String) :
    ((hasSubstr (pyLower cmd) "add" || hasSubstr (pyLower cmd) "create") = true →
      (parseCommand true cmd).map Parsed.intent = .ok "create_object") ∧
    findIntent intentTable text ≠ some "create_camera" ∧
    findIntent intentTable text ≠ some "create_light" ∧
    (findIntent intentTable text = some "create_scene" →
      hasSubstr text "build scene" = true) := by
  refine ⟨?_, ?_⟩
  · intro h
    have h1 : (["add", "create", "make", "place", "put"].any
        (fun p => hasSubstr (pyLower cmd) p)) = true := by
      rcases Bool.or_eq_true_iff.mp h with ha | hc
      · exact List.any_eq_true.mpr ⟨"add", by simp, ha⟩
      · exact List.any_eq_true.mpr ⟨"create", by simp, hc⟩
    have h2 : findIntent intentTable (pyLower cmd) = some "create_object" := by
      show (if (["add", "create", "make", "place", "put"].any
          (fun p => hasSubstr (pyLower cmd) p)) = true then some "create_object"
        else findIntent (intentTable.drop 1) (pyLower cmd)) = some "create_object"
      rw [if_pos h1]
    show Except.ok (extractIntent (pyLower cmd) (tokenize cmd)) = _
    unfold extractIntent
    rw [h2]
  · -- the pattern-scan stage alone, on an arbitrary text
    simp only [intentTable, findIntent]
    split
    next h1 => refine ⟨by simp, by simp, by simp⟩
    next h1 =>
    split
    next h2 => refine ⟨by simp, by simp, by simp⟩
    next h2 =>
    split
    next h3 => refine ⟨by simp, by simp, by simp⟩
    next h3 =>
    split
    next h4 =>
      -- create_camera matched: each trigger contains an earlier one
      exfalso
      apply h1
      obtain ⟨p, hp, hsub⟩ := List.any_eq_true.mp h4
      simp only [List.mem_cons, List.not_mem_nil, or_false] at hp
      rcases hp with rfl | rfl | rfl
      · exact List.any_eq_true.mpr ⟨"add", by simp,
          hasSubstr_of_append text "add" " camera" hsub⟩
      · exact List.any_eq_true.mpr ⟨"create", by simp,
          hasSubstr_of_append text "create" " camera" hsub⟩
      · exact List.any_eq_true.mpr ⟨"place", by simp,
          hasSubstr_of_append text "place" " camera" hsub⟩
    next h4 =>
    split
    next h5 => refine ⟨by simp, by simp, by simp⟩
    next h5 =>
    split
    next h6 =>
      -- create_light matched: each trigger contains an earlier one
      exfalso
      apply h1
      obtain ⟨p, hp, hsub⟩ := List.any_eq_true.mp h6
      simp only [List.mem_cons, List.not_mem_nil, or_false] at hp
      rcases hp with rfl | rfl | rfl
      · exact List.any_eq_true.mpr ⟨"add", by simp,
          hasSubstr_of_append text "add" " light" hsub⟩
      · exact List.any_eq_true.mpr ⟨"create", by simp,
          hasSubstr_of_append text "create" " light" hsub⟩
      · exact List.any_eq_true.mpr ⟨"add", by simp,
          hasSubstr_of_append text "add" " lighting" hsub⟩
    next h6 =>
    split
    next h7 => refine ⟨by simp, by simp, by simp⟩
    next h7 =>
    split
    next h8 =>
      -- create_scene matched: only "build scene" can be the live trigger
      refine ⟨by simp, by simp, fun _ => ?_⟩
      obtain ⟨p, hp, hsub⟩ := List.any_eq_true.mp h8
      simp only [List.mem_cons, List.not_mem_nil, or_false] at hp
      rcases hp with rfl | rfl | rfl
      · exact absurd (List.any_eq_true.mpr ⟨"create", by simp,
          hasSubstr_of_append text "create" " scene" hsub⟩) h1
      · exact absurd (List.any_eq_true.mpr ⟨"make", by simp,
          hasSubstr_of_append text "make" " scene" hsub⟩) h1
      · exact hsub
    next h8 =>
    split
    next h9 => refine ⟨by simp, by simp, by simp⟩
    next h9 =>
    split
    next h10 => refine ⟨by simp, by simp, by simp⟩
    next h10 => refine ⟨by simp, by simp, by simp⟩

/-- C9 witness: the command "add" parses to `create_object`, and
"build scene" (pattern-matched as `create_scene`) indeed contains the
trigger "build scene". -/
theorem C9_add_create_shadowing_witness :
    (parseCommand true "add").map Parsed.intent = .ok "create_object" ∧
    hasSubstr "build scene" "build scene" = true :=
  ⟨(C9_add_create_shadowing "add" "x").1 (by decide),
   (C9_add_create_shadowing "x" "build scene").2.2.2 (by decide)⟩

/-! ## Claim C2: position-hint accumulation -/

/-- Appending a token that carries no delta on axis `a` leaves the last
delta on `a` unchanged. -/
theorem lastAxisDelta_append_none (a : Axis) (l : List String) (t : String)
    (h : axisDelta a t = none) : lastAxisDelta a (l ++ [t]) = lastAxisDelta a l := by
  unfold lastAxisDelta
  rw [List.filterMap_append]
  simp [h]

/-- Appending a token with delta `v` on axis `a` makes `v` the last delta. -/
theorem lastAxisDelta_append_some (a : Axis) (l : List String) (t : String) (v : ℚ)
    (h : axisDelta a t = some v) : lastAxisDelta a (l ++ [t]) = some v := by
  unfold lastAxisDelta
  rw [List.filterMap_append]
  simp [h]

/-- Without any direction word there is no last delta on any axis. -/
theorem lastAxisDelta_eq_none (a : Axis) (l : List String)
    (h : l.any isPosWord = false) : lastAxisDelta a l = none := by
  unfold lastAxisDelta
  have hnil : l.filterMap (axisDelta a) = [] := by
    rw [List.filterMap_eq_nil_iff]
    intro t ht
    cases hpt : positionWords t with
    | none => simp [axisDelta, hpt]
    | some u =>
      exfalso
      have : l.any isPosWord = true :=
        List.any_eq_true.mpr ⟨t, ht, by simp [isPosWord, hpt]⟩
      rw [h] at this
      exact Bool.false_ne_true this
  rw [hnil]
  rfl

/-- The hint dict the extraction loop builds: present iff some direction
word occurs, and then each axis holds the delta of the LAST direction word
of that axis (each `update` overwrites the axis key). -/
theorem extractPositionHint_eq (toks : List String) :
    extractPositionHint toks =
      if toks.any isPosWord then
        some ⟨lastAxisDelta .x toks, lastAxisDelta .y toks, lastAxisDelta .z toks⟩
      else none := by
  induction toks using List.reverseRecOn with
  | nil => rfl
  | append_singleton l t ih =>
    cases hpt : positionWords t with
    | none =>
      have hfold : extractPositionHint (l ++ [t]) = extractPositionHint l := by
        unfold extractPositionHint
        rw [List.foldl_append]
        simp [hpt]
      have hax : ∀ a : Axis, axisDelta a t = none := by
        intro a; simp [axisDelta, hpt]
      rw [hfold, ih, List.any_append]
      have hw : [t].any isPosWord = false := by simp [isPosWord, hpt]
      rw [hw, Bool.or_false,
          lastAxisDelta_append_none Axis.x l t (hax Axis.x),
          lastAxisDelta_append_none Axis.y l t (hax Axis.y),
          lastAxisDelta_append_none Axis.z l t (hax Axis.z)]
    | some u =>
      obtain ⟨b, v⟩ := u
      have hfold : extractPositionHint (l ++ [t]) =
          some (setAxis ((extractPositionHint l).getD PosHint.empty) (b, v)) := by
        unfold extractPositionHint
        rw [List.foldl_append]
        simp [hpt]
      have hw : [t].any isPosWord = true := by simp [isPosWord, hpt]
      rw [hfold, List.any_append, hw, Bool.or_true, if_pos rfl]
      cases hany : l.any isPosWord with
      | true =>
        rw [ih, hany, if_pos rfl]
        cases b with
        | x =>
          rw [lastAxisDelta_append_some Axis.x l t v (by simp [axisDelta, hpt]),
              lastAxisDelta_append_none Axis.y l t (by simp [axisDelta, hpt]),
              lastAxisDelta_append_none Axis.z l t (by simp [axisDelta, hpt])]
          rfl
        | y =>
          rw [lastAxisDelta_append_none Axis.x l t (by simp [axisDelta, hpt]),
              lastAxisDelta_append_some Axis.y l t v (by simp [axisDelta, hpt]),
              lastAxisDelta_append_none Axis.z l t (by simp [axisDelta, hpt])]
          rfl
        | z =>
          rw [lastAxisDelta_append_none Axis.x l t (by simp [axisDelta, hpt]),
              lastAxisDelta_append_none Axis.y l t (by simp [axisDelta, hpt]),
              lastAxisDelta_append_some Axis.z l t v (by simp [axisDelta, hpt])]
          rfl
      | false =>
        rw [ih, hany, if_neg (by simp)]
        cases b with
        | x =>
          rw [lastAxisDelta_append_some Axis.x l t v (by simp [axisDelta, hpt]),
              lastAxisDelta_append_none Axis.y l t (by simp [axisDelta, hpt]),
              lastAxisDelta_append_none Axis.z l t (by simp [axisDelta, hpt]),
              lastAxisDelta_eq_none Axis.y l hany,
              lastAxisDelta_eq_none Axis.z l hany]
          rfl
        | y =>
          rw [lastAxisDelta_append_none Axis.x l t (by simp [axisDelta, hpt]),
              lastAxisDelta_append_some Axis.y l t v (by simp [axisDelta, hpt]),
              lastAxisDelta_append_none Axis.z l t (by simp [axisDelta, hpt]),
              lastAxisDelta_eq_none Axis.x l hany,
              lastAxisDelta_eq_none Axis.z l hany]
          rfl
        | z =>
          rw [lastAxisDelta_append_none Axis.x l t (by simp [axisDelta, hpt]),
              lastAxisDelta_append_none Axis.y l t (by simp [axisDelta, hpt]),
              lastAxisDelta_append_some Axis.z l t v (by simp [axisDelta, hpt]),
              lastAxisDelta_eq_none Axis.x l hany,
              lastAxisDelta_eq_none Axis.y l hany]
          rfl

/-- C2 counterexample: for the command "left right" the code's
`dict.update` overwrites the x key, yielding `{x: 1.0}`; the claimed
additive accumulation yields `{x: 0.0}`. The two differ, so hints do not
sum. -/
theorem C2_counterexample :
    (parseCommand true "left right").map (fun r => r.parameters.positionHint) =
      .ok (some ⟨some 1, none, none⟩) ∧
    positionHintAdditiveSpec (tokenize "left right") = some ⟨some 0, none, none⟩ ∧
    some (⟨some 1, none, none⟩ : PosHint) ≠ some (⟨some 0, none, none⟩ : PosHint) := by
  refine ⟨rfl, ?_, by simp⟩
  have h : positionHintAdditiveSpec (tokenize "left right") =
      some ⟨some (0 + -1 + 1), none, none⟩ := rfl
  rw [h]
  norm_num

/-- C2 (amended): for every command, the extracted `position_hint` is
present iff the command has a direction word, and each axis then carries
the delta of the LAST direction word of that axis in token order (later
words on the same axis overwrite earlier ones; words on distinct axes
combine). -/
theorem C2_position_hint_last_wins (cmd : String) :
    (parseCommand true cmd).map (fun r => r.parameters.positionHint) =
      .ok (if (tokenize cmd).any isPosWord then
            some ⟨lastAxisDelta .x (tokenize cmd), lastAxisDelta .y (tokenize cmd),
                  lastAxisDelta .z (tokenize cmd)⟩
          else none) := by
  show Except.ok (extractPositionHint (tokenize cmd)) = _
  rw [extractPositionHint_eq]

/-! ## Claim C4: the bounded history invariant -/

/-- `takeLast` agrees with take-from-the-reversed-list. -/
theorem takeLast_eq_reverse_take (n : Nat) (l : List α) :
    takeLast n l = (l.reverse.take n).reverse := by
  show l.rtake n = _
  exact List.rtake_eq_reverse_take_reverse l n

/-- `takeLast n` never yields more than `n` elements. -/
theorem takeLast_length (n : Nat) (l : List α) :
    (takeLast n l).length = min n l.length := by
  simp only [takeLast, List.length_drop]
  omega

/-- A list of at most `n` elements is its own last-`n` slice. -/
theorem takeLast_eq_self (n : Nat) (l : List α) (h : l.length ≤ n) :
    takeLast n l = l := by
  simp [takeLast, Nat.sub_eq_zero_of_le h]

/-- Taking the front `n` after prepending to an already-cut front `n`. -/
theorem take_append_take (n : Nat) (a b : List α) :
    (a ++ b.take n).take n = (a ++ b).take n := by
  rw [List.take_append_eq_append_take, List.take_append_eq_append_take, List.take_take,
      Nat.min_eq_left (Nat.sub_le n a.length)]

/-- Cutting to the last `n`, appending, and cutting again is the same as
appending and cutting once: old entries beyond the window never matter. -/
theorem takeLast_append_takeLast (n : Nat) (l m : List α) :
    takeLast n (takeLast n l ++ m) = takeLast n (l ++ m) := by
  rw [takeLast_eq_reverse_take n (takeLast n l ++ m), takeLast_eq_reverse_take n (l ++ m),
      List.reverse_append, takeLast_eq_reverse_take n l, List.reverse_reverse,
      take_append_take, ← List.reverse_append]

/-- The `min N 100` window of the full trace is the same slice whether cut
at 100 or at `min N 100`. -/
theorem takeLast_min (n : Nat) (l : List α) :
    takeLast (min l.length n) l = takeLast n l := by
  unfold takeLast
  congr 1
  omega

/-- A successful `update_scene_state` call: the new scene is the pure
three-category update, and the new history is the last-100 window of the
old history plus the new entry. -/
theorem updateSceneState_ok (t t1 : Tracker) (d : SceneData)
    (h : updateSceneState t d = .ok t1) :
    ∃ s1, applyScene t.currentScene d = some s1 ∧
      t1.currentScene = s1 ∧
      t1.sceneHistory = takeLast 100 (t.sceneHistory ++ [⟨d.timestamp.getD 0, s1⟩]) := by
  unfold updateSceneState at h
  unfold applyScene
  cases h1 : applyCat t.currentScene.objects d.objects with
  | none => rw [h1] at h; exact absurd h (by simp)
  | some objs =>
    rw [h1] at h
    simp only at h
    cases h2 : applyCat t.currentScene.lights d.lights with
    | none => rw [h2] at h; exact absurd h (by simp)
    | some lights =>
      rw [h2] at h
      simp only at h
      cases h3 : applyCat t.currentScene.cameras d.cameras with
      | none => rw [h3] at h; exact absurd h (by simp)
      | some cams =>
        rw [h3] at h
        simp only at h
        refine ⟨⟨objs, lights, cams⟩, rfl, ?_, ?_⟩
        · obtain ⟨hc, _⟩ := Tracker.mk.injEq .. ▸ (Except.ok.injEq .. ▸ h :)
          exact hc.symm
        · obtain ⟨_, hh⟩ := Tracker.mk.injEq .. ▸ (Except.ok.injEq .. ▸ h :)
          rw [← hh]
          split
          · rfl
          · rw [takeLast_eq_self]
            omega

/-- `runUpdates` maintains: if the history started within the window, the
final history is the last-100 window of the starting history plus the full
trace of post-update snapshots. -/
theorem runUpdates_trace (ds : List SceneData) :
    ∀ t tf : Tracker, t.sceneHistory.length ≤ 100 →
      runUpdates t ds = some tf →
      ∃ es, fullTrace t.currentScene ds = some (tf.currentScene, es) ∧
        es.length = ds.length ∧
        tf.sceneHistory = takeLast 100 (t.sceneHistory ++ es) := by
  induction ds with
  | nil =>
    intro t tf hle h
    have ht : t = tf := by simpa [runUpdates] using h
    subst ht
    exact ⟨[], rfl, rfl, by rw [List.append_nil, takeLast_eq_self 100 _ hle]⟩
  | cons d ds ih =>
    intro t tf hle h
    unfold runUpdates at h
    cases hu : updateSceneState t d with
    | error t1 => rw [hu] at h; exact absurd h (by simp)
    | ok t1 =>
      rw [hu] at h
      simp only at h
      obtain ⟨s1, ha, hc, hh⟩ := updateSceneState_ok t t1 d hu
      have hle1 : t1.sceneHistory.length ≤ 100 := by
        rw [hh, takeLast_length]
        omega
      obtain ⟨es, hft, hlen, hhist⟩ := ih t1 tf hle1 h
      refine ⟨⟨d.timestamp.getD 0, s1⟩ :: es, ?_, by simp [hlen], ?_⟩
      · unfold fullTrace
        rw [ha]
        simp only
        rw [hc] at hft
        rw [hft]
      · rw [hhist, hh, takeLast_append_takeLast, List.append_assoc]
        rfl

/-- C4: starting from the freshly initialized tracker, after `N ≥ 1`
successful updates the history length is `min N 100` and the retained
entries are exactly the last `min N 100` post-update snapshots of the full
chronological trace (oldest evicted first). -/
theorem C4_history_bounded_fifo (ds : List SceneData) (tf : Tracker)
    (hN : 1 ≤ ds.length) (h : runUpdates initTracker ds = some tf) :
    ∃ es, fullTrace initScene ds = some (tf.currentScene, es) ∧
      es.length = ds.length ∧
      tf.sceneHistory = takeLast (min ds.length 100) es ∧
      tf.sceneHistory.length = min ds.length 100 := by
  obtain ⟨es, h1, h2, h3⟩ := runUpdates_trace ds initTracker tf (by simp [initTracker]) h
  have hnil : initTracker.sceneHistory ++ es = es := by simp [initTracker]
  rw [hnil] at h3
  refine ⟨es, h1, h2, ?_, ?_⟩
  · rw [h3, ← h2, takeLast_min]
  · rw [h3, takeLast_length, h2]
    omega

/-- C4 witness: one update from startup gives history length `min 1 100`. -/
theorem C4_history_bounded_fifo_witness :
    ∃ es, fullTrace initScene dsC4 = some (tC4.currentScene, es) ∧
      es.length = dsC4.length ∧
      tC4.sceneHistory = takeLast (min dsC4.length 100) es ∧
      tC4.sceneHistory.length = min dsC4.length 100 :=
  C4_history_bounded_fifo dsC4 tC4 (by decide) rfl

end Engine











